import Mathlib

/-!
Verification of the supervisory watchdog / recovery / duty-cycle logic of the
`radar_usb.ino` firmware (rasp-beluga repository).

The firmware's supervisory loop is embedded shallowly:

* `millis()` ticks are natural numbers; the 32-bit wrap of C `unsigned long`
  arithmetic is made explicit with `usub32` (wrapping subtraction) and with
  the firmware's own overflow branch in `check_timeout_safe`.
* Mutable globals and function-local `static` variables become fields of
  `SupState`; one iteration of `loop()` becomes the pure function `loop_step`
  from a state and a `CycleInput` (the values produced by the sensor driver,
  the serial link and the random generator during that iteration, which are
  external to the supervisory logic) to a `StepResult`.
* Device-level effects (serial restarts, sensor reinitializations, deep
  sleep) are recorded as `Act` values in the order the firmware would
  perform them; log lines relevant to the claims are recorded as `LogEv`.
* Sensor readings are rationals (the firmware only compares them with 0,
  1.5 and 0; no real floating-point behaviour is relied upon).
* All calls to `millis()` within a single loop iteration are modelled by the
  single value `CycleInput.now` (the firmware's intra-iteration clock drift
  is a few seconds at most and none of the claims depends on it).
* Sections of `loop()` that only print diagnostics and touch no state used
  anywhere else (status log, memory check, temperature check, sensor
  communication status, quick check, inactive-mode message, keep-alive,
  heartbeat) are omitted; the two invocations of
  `check_serial_communication` are kept because they write the shared
  counter `consecutive_failures`.
* The trigonometric position fallback (`distance * cos/sin(angle)`) is
  floating-point computation irrelevant to every claim; the produced pair is
  taken from the input (`fallback_x/fallback_y`) while the angle bookkeeping
  is modelled exactly.
-/

/-- 2^32, the modulus of C `unsigned long` arithmetic on the target. -/
def tickModulus : Nat := 4294967296

/-- Wrapping 32-bit subtraction `a - b`, as C unsigned arithmetic computes it
for `a b < 2^32`.  This is the mathematically correct wrapped distance from
`b` up to `a`. -/
def usub32 (a b : Nat) : Nat := (a + tickModulus - b) % tickModulus

/-- Firmware constant `MAX_RESETS_PER_SESSION` (3 resets). -/
def MAX_RESETS_PER_SESSION : Nat := 3

/-- Firmware constant `MIN_RESET_INTERVAL` (30 minutes in ms). -/
def MIN_RESET_INTERVAL : Nat := 1800000

/-- Firmware constant `HOURLY_SLEEP_INTERVAL` (1 hour in ms). -/
def HOURLY_SLEEP_INTERVAL : Nat := 3600000

/-- Firmware constant `DEEP_SLEEP_DURATION` (1 minute in microseconds). -/
def DEEP_SLEEP_DURATION : Nat := 60000000

/-- Firmware constant `RESET_TIMEOUT` (10 minutes in ms). -/
def RESET_TIMEOUT : Nat := 600000

/-- Firmware constant `MAX_CONSECUTIVE_FAILURES` (20). -/
def MAX_CONSECUTIVE_FAILURES : Nat := 20

/-- Firmware constant `DIAGNOSTIC_INTERVAL` (5 minutes in ms). -/
def DIAGNOSTIC_INTERVAL : Nat := 300000

/-- Firmware constant `SERIAL_CHECK_INTERVAL` (1 minute in ms). -/
def SERIAL_CHECK_INTERVAL : Nat := 60000

/-- The overflow-safe elapsed-time computation performed inside
`check_timeout_safe` (radar_usb.ino lines 1547-1560): on wraparound
(`current_time < last_time`) the firmware adds `current_time` to
`0xFFFFFFFF - last_time`; otherwise it subtracts directly. -/
def elapsed_safe (current_time last_time : Nat) : Nat :=
  if current_time < last_time then
    current_time + (4294967295 - last_time)
  else
    current_time - last_time

/-- `check_timeout_safe(last_time, timeout)` from radar_usb.ino lines
1547-1560, with the `millis()` value passed explicitly as `current_time`.
Both branches test with strict `>`. -/
def check_timeout_safe (current_time last_time timeout : Nat) : Bool :=
  if current_time < last_time then
    decide (current_time + (4294967295 - last_time) > timeout)
  else
    decide (current_time - last_time > timeout)

theorem check_timeout_safe_eq_elapsed (current_time last_time timeout : Nat) :
    check_timeout_safe current_time last_time timeout =
      decide (elapsed_safe current_time last_time > timeout) := by
  unfold check_timeout_safe elapsed_safe
  split <;> rfl

/-- C2 counterexample.  The claim asserts that for `now < mark` the
wraparound branch equals the mathematically correct wrapped distance
`(now - mark) mod 2^32`.  At `now = 0`, `mark = 1` the code computes
`0 + (0xFFFFFFFF - 1) = 4294967294` while the wrapped distance is
`4294967295`: the branch is off by one. -/
theorem elapsed_safe_wrap_not_exact :
    0 < 1 ∧ elapsed_safe 0 1 ≠ usub32 0 1 := by
  constructor
  · decide
  · decide

/-- C2 (amended): for every `now < mark < 2^32`, the wraparound branch of
`check_timeout_safe` computes exactly one less than the mathematically
correct wrapped distance `(now - mark) mod 2^32`. -/
theorem elapsed_safe_wrap_off_by_one (now mark : Nat) (hlt : now < mark)
    (hm : mark < tickModulus) :
    elapsed_safe now mark = usub32 now mark - 1 := by
  unfold elapsed_safe usub32 tickModulus
  rw [if_pos hlt]
  have hmod : (now + 4294967296 - mark) % 4294967296 = now + 4294967296 - mark :=
    Nat.mod_eq_of_lt (by omega)
  unfold tickModulus at hm
  omega

/-- Witness for the C2 amended theorem at `now = 0`, `mark = 1`. -/
theorem elapsed_safe_wrap_off_by_one_witness :
    elapsed_safe 0 1 = usub32 0 1 - 1 :=
  elapsed_safe_wrap_off_by_one 0 1 (by decide) (by decide)

/-- C8 counterexample.  The claim asserts the predicate is true exactly when
the overflow-safe elapsed time is at least the period (in particular at
exact equality).  At `now = 5000`, `mark = 0`, `period = 5000` the elapsed
time equals the period but the firmware's strict `>` yields `false`. -/
theorem check_timeout_safe_not_ge :
    ¬(check_timeout_safe 5000 0 5000 = true ↔ elapsed_safe 5000 0 ≥ 5000) := by
  decide

/-- C8 (amended): `check_timeout_safe(mark, period)` returns true if and only
if the overflow-safe elapsed time since `mark` is strictly greater than
`period`; at exact equality it returns false. -/
theorem check_timeout_safe_iff_gt (current_time last_time timeout : Nat) :
    check_timeout_safe current_time last_time timeout = true ↔
      elapsed_safe current_time last_time > timeout := by
  rw [check_timeout_safe_eq_elapsed]
  exact decide_eq_true_iff

/-- One telemetry record, exactly the fields printed by
`send_formatted_data` (radar_usb.ino lines 345-351): breath rate, heart
rate, x position, y position.  There is no further field. -/
structure Telemetry where
  breath : ℚ
  heart : ℚ
  x : ℚ
  y : ℚ
  deriving Repr, DecidableEq

/-- Device-level effects performed by the supervisory loop, in the order
they would happen on the hardware. -/
inductive Act where
  /-- `attempt_position_recovery()`: buffer flush, forced updates, position
  reconfiguration commands; no serial-link restart. -/
  | positionRecoveryAttempt
  /-- `force_complete_sensor_reinitialization()`: serial end/begin,
  `mmWave.begin`, full mode reconfiguration (tier 3, unconditional). -/
  | fullReinit
  /-- `test_serial_communication()`: reads/writes test bytes only. -/
  | wireDiagnostics
  /-- `test_all_reset_methods()`: radar reset commands, and a serial-link
  restart when the first two methods fail. -/
  | allResetMethods
  /-- `reset_position_communication()`: buffer flush plus probe calls. -/
  | softReset
  /-- `careful_sensor_reinitialization()`: serial end/begin and
  `mmWave.begin` when a probe confirms the sensor is down. -/
  | carefulReinit
  /-- `reset_sensor_via_serial()`: serial end/begin and `mmWave.begin`
  (tier 2, only ever dispatched by `safe_reset_sensor`). -/
  | serialReset
  /-- `reset_sensor_system()`: serial end/begin, `mmWave.begin`, counter
  reset. -/
  | systemReset
  /-- `get_vital_signs_robust()`: up to five fresh driver reads. -/
  | robustVitalsRead
  /-- `simulate_vital_signs()`: synthetic vital-sign substitution. -/
  | simulateVitals
  /-- `enter_deep_sleep` from the hourly scheduled path (microseconds). -/
  | suspendScheduled (us : Nat)
  /-- `enter_deep_sleep` from the emergency timeout path (microseconds). -/
  | suspendEmergency (us : Nat)
  deriving Repr, DecidableEq

/-- Log events relevant to the claims. -/
inductive LogEv where
  /-- "Reset cancelado por proteção de segurança" (denied by the budget). -/
  | resetDenied
  /-- "Reset autorizado - Executando..." -/
  | resetAuthorized
  deriving Repr, DecidableEq

/-- All mutable globals and loop-local `static` variables of radar_usb.ino
that the claims depend on.  Fields marked RTC survive deep sleep
(`RTC_DATA_ATTR` in the source); every other field is reinitialized on
wake. -/
structure SupState where
  breath_rate : ℚ
  heart_rate : ℚ
  distance : ℚ
  x_position : ℚ
  y_position : ℚ
  consecutive_failures : Nat
  successful_readings : Nat
  failed_readings : Nat
  total_loops : Nat
  last_data_received : Nat
  last_diagnostic_time : Nat
  last_serial_check : Nat
  /-- RTC: `RTC_DATA_ATTR int bootCount`. -/
  bootCount : Nat
  /-- RTC: `RTC_DATA_ATTR unsigned long last_hourly_sleep`. -/
  last_hourly_sleep : Nat
  /-- RTC: `RTC_DATA_ATTR unsigned long last_reset_time_rtc`. -/
  last_reset_time_rtc : Nat
  /-- NOT marked `RTC_DATA_ATTR` in the source (line 46): lost on wake. -/
  is_hourly_sleep_mode : Bool
  reset_count_this_session : Nat
  -- statics of loop()
  last_complete_failure_check : Nat
  complete_failure_count : Nat
  position_recovery_attempted : Bool
  last_position_recovery : Nat
  recovery_attempts : Nat
  last_vitals_failed_debug : Nat
  consecutive_vitals_failed_count : Nat
  last_all_failed_debug : Nat
  consecutive_all_failed_count : Nat
  last_position_fail_debug : Nat
  consecutive_position_failures : Nat
  last_fallback_update : Nat
  fallback_angle : ℚ
  -- statics of simulate_vital_signs()
  last_simulation : Nat
  sim_breath : ℚ
  sim_heart : ℚ
  deriving Repr, DecidableEq

/-- Everything external that one loop iteration consumes: the clock, the
driver results, the serial link's behaviour and the random draws.
`sim_delta_breath/heart` are the values of `random(-2,3)` / `random(-5,6)`
(the range restriction is never needed by the proofs, so they are arbitrary
integers). `fallback_x/y` stand for `distance*cos/sin(angle)`. -/
structure CycleInput where
  now : Nat
  serial_responds_diag : Bool
  serial_responds_check : Bool
  update_ok : Bool
  breath_ok : Bool
  breath_val : ℚ
  heart_ok : Bool
  heart_val : ℚ
  dist_ok : Bool
  dist_val : ℚ
  robust_ok : Bool
  robust_breath : ℚ
  robust_heart : ℚ
  sim_delta_breath : Int
  sim_delta_heart : Int
  pos_ok : Bool
  targets : List (ℚ × ℚ)
  reset_retest_ok : Bool
  fallback_x : ℚ
  fallback_y : ℚ
  deriving Repr

/-- `is_reset_safe()` (radar_usb.ino lines 1310-1332): a reset is allowed
only when fewer than `MAX_RESETS_PER_SESSION` resets happened this session
and at least `MIN_RESET_INTERVAL` ms have elapsed (in wrapping 32-bit
arithmetic, as the C subtraction computes it) since `last_reset_time_rtc`. -/
def is_reset_safe (now : Nat) (s : SupState) : Bool :=
  if s.reset_count_this_session ≥ MAX_RESETS_PER_SESSION then false
  else if usub32 now s.last_reset_time_rtc < MIN_RESET_INTERVAL then false
  else true

/-- `safe_reset_sensor()` (radar_usb.ino lines 1334-1347): consult
`is_reset_safe`; on denial log and do nothing; on authorization increment
the session counter, stamp `last_reset_time_rtc`, then perform
`reset_sensor_via_serial()`. -/
def safe_reset_sensor (now : Nat) (s : SupState) :
    SupState × List Act × List LogEv :=
  if is_reset_safe now s then
    ({ s with reset_count_this_session := s.reset_count_this_session + 1,
              last_reset_time_rtc := now },
     [Act.serialReset], [LogEv.resetAuthorized])
  else
    (s, [], [LogEv.resetDenied])

/-- `reset_sensor_system()` (radar_usb.ino lines 1466-1521): full serial and
sensor reinitialization, then timestamps and counters are cleared. -/
def reset_sensor_system (now : Nat) (s : SupState) : SupState × List Act :=
  ({ s with last_data_received := now, consecutive_failures := 0,
            failed_readings := 0, successful_readings := 0 },
   [Act.systemReset])

/-- The pair of sequential clamps `if (v < lo) v = lo; if (v > hi) v = hi;`
used on the synthetic vital signs (radar_usb.ino lines 1229-1232). -/
def clamp_low_high (lo hi x : ℚ) : ℚ :=
  if (if x < lo then lo else x) > hi then hi
  else (if x < lo then lo else x)

/-- `simulate_vital_signs()` (radar_usb.ino lines 1217-1241): every 5
seconds the stored synthetic values drift by the random deltas and are
clamped into [12,25] and [60,100]; the stored values are then written into
the global `breath_rate`/`heart_rate`. -/
def simulate_vital_signs (now : Nat) (db dh : Int) (s : SupState) : SupState :=
  let s1 :=
    if usub32 now s.last_simulation > 5000 then
      { s with last_simulation := now,
               sim_breath := clamp_low_high 12 25 (s.sim_breath + (db : ℚ)),
               sim_heart := clamp_low_high 60 100 (s.sim_heart + (dh : ℚ)) }
    else s
  { s1 with breath_rate := s1.sim_breath, heart_rate := s1.sim_heart }

/-- The two invocations of `check_serial_communication` reachable from the
top of `loop()`: one through `perform_system_diagnostic` on the 5-minute
timer (lines 1700-1703), one on the 1-minute serial-check timer (lines
1712-1715).  `check_serial_communication` (lines 204-264) zeroes
`consecutive_failures` when the sensor answers within 1 s and increments it
otherwise; all its other output is logging. -/
def periodic_checks (now : Nat) (inp : CycleInput) (s : SupState) : SupState :=
  let s1 :=
    if check_timeout_safe now s.last_diagnostic_time DIAGNOSTIC_INTERVAL then
      { s with consecutive_failures :=
                 if inp.serial_responds_diag then 0 else s.consecutive_failures + 1,
               last_diagnostic_time := now }
    else s
  if check_timeout_safe now s1.last_serial_check SERIAL_CHECK_INTERVAL then
    { s1 with consecutive_failures :=
                if inp.serial_responds_check then 0 else s1.consecutive_failures + 1,
              last_serial_check := now }
  else s1

/-- Complete-sensor-failure watchdog (radar_usb.ino lines 1755-1776): every
30 s, if all five data globals are zero, count; at the 5th observation run
`force_complete_sensor_reinitialization()` unconditionally (no
`is_reset_safe` consultation) and clear the count. -/
def complete_failure_block (now : Nat) (s : SupState) : SupState × List Act :=
  if check_timeout_safe now s.last_complete_failure_check 30000 then
    if s.breath_rate = 0 ∧ s.heart_rate = 0 ∧ s.distance = 0 ∧
       s.x_position = 0 ∧ s.y_position = 0 then
      let c := s.complete_failure_count + 1
      if c ≥ 5 then
        ({ s with complete_failure_count := 0,
                  last_complete_failure_check := now }, [Act.fullReinit])
      else
        ({ s with complete_failure_count := c,
                  last_complete_failure_check := now }, [])
    else
      ({ s with complete_failure_count := 0,
                last_complete_failure_check := now }, [])
  else (s, [])

/-- Position-recovery retry loop (radar_usb.ino lines 1781-1812): while the
position is (0,0), retry `attempt_position_recovery()` at most once per
minute; at the third attempt run `force_complete_sensor_reinitialization()`
unconditionally instead. -/
def position_recovery_block (now : Nat) (s : SupState) : SupState × List Act :=
  if s.x_position = 0 ∧ s.y_position = 0 then
    if ¬s.position_recovery_attempted then
      ({ s with position_recovery_attempted := true, recovery_attempts := 1,
                last_position_recovery := now }, [Act.positionRecoveryAttempt])
    else if usub32 now s.last_position_recovery > 60000 then
      let a := s.recovery_attempts + 1
      if a ≥ 3 then
        ({ s with recovery_attempts := 0, last_position_recovery := now },
         [Act.fullReinit])
      else
        ({ s with recovery_attempts := a, last_position_recovery := now },
         [Act.positionRecoveryAttempt])
    else (s, [])
  else
    ({ s with position_recovery_attempted := false, recovery_attempts := 0 }, [])

/-- Consecutive-failure escalation (radar_usb.ino lines 1842-1857): at 20
consecutive failures call `safe_reset_sensor()`; at 40, if the budget still
allows, also `reset_sensor_system()`; then clear the counter. -/
def consecutive_failures_block (now : Nat) (s : SupState) :
    SupState × List Act × List LogEv :=
  if s.consecutive_failures ≥ MAX_CONSECUTIVE_FAILURES then
    let r1 := safe_reset_sensor now s
    let r2 :=
      if r1.1.consecutive_failures ≥ MAX_CONSECUTIVE_FAILURES * 2 ∧
         is_reset_safe now r1.1 then
        reset_sensor_system now r1.1
      else (r1.1, [])
    ({ r2.1 with consecutive_failures := 0 }, r1.2.1 ++ r2.2, r1.2.2)
  else (s, [], [])

/-- Two-hour preventive reset (radar_usb.ino lines 1859-1878): within the
first minute after each multiple of two hours of uptime, call
`safe_reset_sensor()`, and `reset_sensor_system()` when failures persist and
the budget allows. -/
def operation_time_block (now : Nat) (s : SupState) :
    SupState × List Act × List LogEv :=
  if now / 1000 > 7200 then
    if (now / 1000) % 7200 < 60 then
      let r1 := safe_reset_sensor now s
      if r1.1.consecutive_failures > 0 ∧ is_reset_safe now r1.1 then
        let r2 := reset_sensor_system now r1.1
        (r2.1, r1.2.1 ++ r2.2, r1.2.2)
      else (r1.1, r1.2.1, r1.2.2)
    else (s, [], [])
  else (s, [], [])

/-- Vitals-failure recovery (radar_usb.ino lines 1953-1995), entered with
the `vitals_failed` flag computed from the just-read values: at most every
15 s the streak counter advances; when it reaches 2, either substitute
synthetic vitals directly (distance above 1.5 m) or try
`get_vital_signs_robust()` and substitute on failure; then clear the
counter. -/
def vitals_block (now : Nat) (inp : CycleInput) (vitals_failed : Bool)
    (s : SupState) : SupState × List Act :=
  if vitals_failed ∧ usub32 now s.last_vitals_failed_debug > 15000 then
    let c := s.consecutive_vitals_failed_count + 1
    let s1 := { s with consecutive_vitals_failed_count := c,
                       last_vitals_failed_debug := now }
    if c ≥ 2 then
      let r :=
        if s1.distance > 3/2 then
          (simulate_vital_signs now inp.sim_delta_breath inp.sim_delta_heart s1,
           [Act.simulateVitals])
        else if inp.robust_ok then
          ({ s1 with breath_rate := inp.robust_breath,
                     heart_rate := inp.robust_heart }, [Act.robustVitalsRead])
        else
          (simulate_vital_signs now inp.sim_delta_breath inp.sim_delta_heart s1,
           [Act.robustVitalsRead, Act.simulateVitals])
      ({ r.1 with consecutive_vitals_failed_count := 0 }, r.2)
    else (s1, [])
  else if ¬vitals_failed then
    ({ s with consecutive_vitals_failed_count := 0 }, [])
  else (s, [])

/-- All-data-failure escalation (radar_usb.ino lines 2009-2059), entered
with the `all_data_failed` flag computed from the just-read values: at most
every 10 s the streak counter advances; at 3 run wire diagnostics, at 4 try
every reset method, at 5 run a soft reset, retest, run
`careful_sensor_reinitialization()` if the retest fails, and clear the
counter regardless of the outcome. -/
def all_failed_block (now : Nat) (inp : CycleInput) (all_data_failed : Bool)
    (s : SupState) : SupState × List Act :=
  if all_data_failed ∧ usub32 now s.last_all_failed_debug > 10000 then
    let c := s.consecutive_all_failed_count + 1
    let s1 := { s with consecutive_all_failed_count := c,
                       last_all_failed_debug := now }
    let a3 : List Act := if c = 3 then [Act.wireDiagnostics] else []
    let a4 : List Act := if c = 4 then [Act.allResetMethods] else []
    if c ≥ 5 then
      let a5 : List Act :=
        if inp.reset_retest_ok then [Act.softReset]
        else [Act.softReset, Act.carefulReinit]
      ({ s1 with consecutive_all_failed_count := 0 }, a3 ++ a4 ++ a5)
    else (s1, a3 ++ a4)
  else if ¬all_data_failed then
    ({ s with consecutive_all_failed_count := 0 }, [])
  else (s, [])

/-- Native position acquisition (radar_usb.ino lines 2063-2135): on success
take the first target as (x,y) or (0,0) when none; on failure zero the
position and, at most once a minute, count the failure, running
`reset_position_communication()` at the third consecutive one. -/
def position_block (now : Nat) (inp : CycleInput) (s : SupState) :
    SupState × List Act :=
  if inp.pos_ok then
    match inp.targets with
    | (x, y) :: _ => ({ s with x_position := x, y_position := y }, [])
    | [] => ({ s with x_position := 0, y_position := 0 }, [])
  else
    let s1 := { s with x_position := 0, y_position := 0 }
    if usub32 now s1.last_position_fail_debug > 60000 then
      let c := s1.consecutive_position_failures + 1
      let s2 := { s1 with consecutive_position_failures := c,
                          last_position_fail_debug := now }
      if c ≥ 3 then
        ({ s2 with consecutive_position_failures := 0 }, [Act.softReset])
      else (s2, [])
    else (s1, [])

/-- Distance-based position fallback (radar_usb.ino lines 2137-2157): while
the position is (0,0) and a distance exists, every 2 s rotate the fallback
angle by 15 degrees and place the target at
`distance * (cos angle, sin angle)` (the trigonometric values are taken from
the input, see the module comment). -/
def fallback_block (now : Nat) (inp : CycleInput) (s : SupState) : SupState :=
  if s.x_position = 0 ∧ s.y_position = 0 ∧ s.distance > 0 then
    if usub32 now s.last_fallback_update > 2000 then
      let ang := s.fallback_angle + 15
      let ang2 := if ang ≥ 360 then (0 : ℚ) else ang
      { s with fallback_angle := ang2, last_fallback_update := now,
               x_position := inp.fallback_x, y_position := inp.fallback_y }
    else s
  else s

/-- The successful-read body of `loop()` (radar_usb.ino lines 1892-2183):
zero the data globals, apply the driver reads (0.0 is the failure
sentinel), classify, run the vitals and all-data recovery ladders, acquire
the position, apply the fallback, and emit the telemetry record from the
final global values. -/
def read_area (now : Nat) (inp : CycleInput) (s : SupState) :
    SupState × List Act × Telemetry :=
  let breath : ℚ := if inp.breath_ok then inp.breath_val else 0
  let heart : ℚ := if inp.heart_ok then inp.heart_val else 0
  let dist : ℚ := if inp.dist_ok then inp.dist_val else 0
  let s0 := { s with breath_rate := breath, heart_rate := heart,
                     distance := dist, x_position := 0, y_position := 0 }
  let vitals_failed : Bool := decide (breath = 0 ∧ heart = 0)
  let all_data_failed : Bool := decide (breath = 0 ∧ heart = 0 ∧ dist = 0)
  let rv := vitals_block now inp vitals_failed s0
  let ra := all_failed_block now inp all_data_failed rv.1
  let rp := position_block now inp ra.1
  let s4 := fallback_block now inp rp.1
  (s4, rv.2 ++ ra.2 ++ rp.2,
   { breath := s4.breath_rate, heart := s4.heart_rate,
     x := s4.x_position, y := s4.y_position })

/-- The failed-read tail of `loop()` (radar_usb.ino lines 2184-2207): count
the failure; at 10 consecutive ones run wire diagnostics, at 15 call
`safe_reset_sensor()` and clear the counter. -/
def failure_branch (now : Nat) (s : SupState) :
    SupState × List Act × List LogEv :=
  let s1 := { s with failed_readings := s.failed_readings + 1,
                     consecutive_failures := s.consecutive_failures + 1 }
  if s1.consecutive_failures ≥ 10 then
    if s1.consecutive_failures ≥ 15 then
      let r := safe_reset_sensor now s1
      ({ r.1 with consecutive_failures := 0 },
       Act.wireDiagnostics :: r.2.1, r.2.2)
    else (s1, [Act.wireDiagnostics], [])
  else (s1, [], [])

/-- Which suspend path ended the iteration, if any. -/
inductive SuspendKind where
  | scheduled
  | emergency
  deriving Repr, DecidableEq

/-- Everything one iteration of `loop()` produces. -/
structure StepResult where
  state : SupState
  actions : List Act
  logs : List LogEv
  telemetry : Option Telemetry
  suspend : Option SuspendKind
  deriving Repr, DecidableEq

/-- One full iteration of `loop()` (radar_usb.ino lines 1684-2211), in
source order: periodic checks, complete-failure watchdog, position-recovery
retry, hourly scheduled deep sleep (ends the iteration), emergency
deep sleep on 10 minutes without data (ends the iteration),
consecutive-failure escalation, two-hour preventive reset, then the sensor
read with its success and failure branches. -/
def loop_step (s : SupState) (inp : CycleInput) : StepResult :=
  let now := inp.now
  let s1 := periodic_checks now inp { s with total_loops := s.total_loops + 1 }
  let cf := complete_failure_block now s1
  let pr := position_recovery_block now cf.1
  let s3 := pr.1
  let actsPre := cf.2 ++ pr.2
  if check_timeout_safe now s3.last_hourly_sleep HOURLY_SLEEP_INTERVAL then
    { state := { s3 with is_hourly_sleep_mode := true, last_hourly_sleep := now },
      actions := actsPre ++ [Act.suspendScheduled DEEP_SLEEP_DURATION],
      logs := [], telemetry := none, suspend := some SuspendKind.scheduled }
  else if check_timeout_safe now s3.last_data_received RESET_TIMEOUT then
    { state := s3,
      actions := actsPre ++ [Act.suspendEmergency DEEP_SLEEP_DURATION],
      logs := [], telemetry := none, suspend := some SuspendKind.emergency }
  else
    let cb := consecutive_failures_block now s3
    let ob := operation_time_block now cb.1
    let s5 := ob.1
    if inp.update_ok then
      let s6 := { s5 with successful_readings := s5.successful_readings + 1,
                          consecutive_failures := 0, last_data_received := now }
      let ra := read_area now inp s6
      { state := ra.1, actions := actsPre ++ cb.2.1 ++ ob.2.1 ++ ra.2.1,
        logs := cb.2.2 ++ ob.2.2, telemetry := some ra.2.2, suspend := none }
    else
      let fb := failure_branch now s5
      { state := fb.1, actions := actsPre ++ cb.2.1 ++ ob.2.1 ++ fb.2.1,
        logs := cb.2.2 ++ ob.2.2 ++ fb.2.2, telemetry := none, suspend := none }

/-- The state after a fresh power-on: global initializers (radar_usb.ino
lines 25-84) plus `setup()` with the boot counted and all timestamp globals
stamped near time zero. -/
def initState : SupState where
  breath_rate := 0
  heart_rate := 0
  distance := 0
  x_position := 0
  y_position := 0
  consecutive_failures := 0
  successful_readings := 0
  failed_readings := 0
  total_loops := 0
  last_data_received := 0
  last_diagnostic_time := 0
  last_serial_check := 0
  bootCount := 1
  last_hourly_sleep := 0
  last_reset_time_rtc := 0
  is_hourly_sleep_mode := false
  reset_count_this_session := 0
  last_complete_failure_check := 0
  complete_failure_count := 0
  position_recovery_attempted := false
  last_position_recovery := 0
  recovery_attempts := 0
  last_vitals_failed_debug := 0
  consecutive_vitals_failed_count := 0
  last_all_failed_debug := 0
  consecutive_all_failed_count := 0
  last_position_fail_debug := 0
  consecutive_position_failures := 0
  last_fallback_update := 0
  fallback_angle := 0
  last_simulation := 0
  sim_breath := 16
  sim_heart := 70

/-- Wake from deep sleep (`esp_deep_sleep_start` resumes at program entry,
then `setup()`, radar_usb.ino lines 1581-1681).  Only the `RTC_DATA_ATTR`
variables (`bootCount`, `last_hourly_sleep`, `last_reset_time_rtc`) keep
their values; every other global and static is reinitialized, in particular
`is_hourly_sleep_mode` (declared without `RTC_DATA_ATTR` on line 46) is
false again.  `setup()` increments the boot counter, stamps the timestamp
globals with the wake-time clock `now0`, and since the wakeup cause is the
timer, runs `reset_sensor_system()`; the scheduled-wake branch (line 1634)
would be taken only if `is_hourly_sleep_mode` had survived. -/
def resume (now0 : Nat) (s : SupState) : SupState × List Act :=
  let s0 := { initState with
                bootCount := s.bootCount + 1,
                last_hourly_sleep := s.last_hourly_sleep,
                last_reset_time_rtc := s.last_reset_time_rtc,
                last_data_received := now0,
                last_diagnostic_time := now0,
                last_serial_check := now0 }
  if s0.is_hourly_sleep_mode then
    reset_sensor_system now0 { s0 with is_hourly_sleep_mode := false }
  else
    reset_sensor_system now0 s0

/-- Run the supervisory loop through a list of cycle inputs, keeping only
the state (used to build concrete execution traces). -/
def run (s : SupState) : List CycleInput → SupState
  | [] => s
  | inp :: rest => run (loop_step s inp).state rest

/-- States of the supervisory loop reachable from power-on by loop
iterations and deep-sleep wakeups. -/
inductive Reachable : SupState → Prop where
  | init : Reachable initState
  | step (s : SupState) (inp : CycleInput) :
      Reachable s → Reachable (loop_step s inp).state
  | wake (s : SupState) (now0 : Nat) :
      Reachable s → Reachable (resume now0 s).1

/-- A quiet cycle: driver update fails, serial link answers the periodic
checks, every optional datum absent.  Concrete traces below modify the
fields they need. -/
def baseInput (now : Nat) : CycleInput where
  now := now
  serial_responds_diag := true
  serial_responds_check := true
  update_ok := false
  breath_ok := false
  breath_val := 0
  heart_ok := false
  heart_val := 0
  dist_ok := false
  dist_val := 0
  robust_ok := false
  robust_breath := 0
  robust_heart := 0
  sim_delta_breath := 0
  sim_delta_heart := 0
  pos_ok := false
  targets := []
  reset_retest_ok := true
  fallback_x := 0
  fallback_y := 0

theorem safe_reset_sensor_actions (now : Nat) (s : SupState) :
    (safe_reset_sensor now s).2.1 =
      if is_reset_safe now s then [Act.serialReset] else [] := by
  unfold safe_reset_sensor
  split <;> rfl

theorem mem_safe_reset_actions {now : Nat} {s : SupState}
    (h : Act.serialReset ∈ (safe_reset_sensor now s).2.1) :
    is_reset_safe now s = true := by
  rw [safe_reset_sensor_actions] at h
  by_cases hs : is_reset_safe now s
  · exact hs
  · rw [if_neg hs] at h
    cases h

theorem is_reset_safe_true_iff (now : Nat) (s : SupState) :
    is_reset_safe now s = true ↔
      s.reset_count_this_session < MAX_RESETS_PER_SESSION ∧
      usub32 now s.last_reset_time_rtc ≥ MIN_RESET_INTERVAL := by
  unfold is_reset_safe
  by_cases h1 : s.reset_count_this_session ≥ MAX_RESETS_PER_SESSION
  · rw [if_pos h1]
    simp
    omega
  · rw [if_neg h1]
    by_cases h2 : usub32 now s.last_reset_time_rtc < MIN_RESET_INTERVAL
    · rw [if_pos h2]
      simp
      omega
    · rw [if_neg h2]
      simp
      omega

/-- C4: when the reset budget denies a requested reset, `safe_reset_sensor`
logs the denial, performs no device action, and leaves the whole state —
in particular every failure counter — unchanged. -/
theorem reset_denied_inert (now : Nat) (s : SupState)
    (h : is_reset_safe now s = false) :
    (safe_reset_sensor now s).1 = s ∧
    (safe_reset_sensor now s).2.1 = [] ∧
    LogEv.resetDenied ∈ (safe_reset_sensor now s).2.2 := by
  unfold safe_reset_sensor
  rw [h]
  exact ⟨rfl, rfl, List.mem_singleton.mpr rfl⟩

/-- Witness for C4: at power-on (`last_reset_time_rtc = 0`) a reset request
at `now = 0` is denied (the 30-minute minimum has not elapsed) and is
inert. -/
theorem reset_denied_inert_witness :
    (safe_reset_sensor 0 initState).1 = initState ∧
    (safe_reset_sensor 0 initState).2.1 = [] ∧
    LogEv.resetDenied ∈ (safe_reset_sensor 0 initState).2.2 :=
  reset_denied_inert 0 initState (by decide)

/-- C9: a reset executes only when the session budget and the 30-minute
minimum interval allow it; an authorized `safe_reset_sensor` call updates
the session counter and the reset timestamp together in the same step and
dispatches exactly the serial-link restart; a denied call changes
neither field. -/
theorem reset_budget_protocol (now : Nat) (s : SupState) :
    ((safe_reset_sensor now s).2.1 ≠ [] →
       s.reset_count_this_session < MAX_RESETS_PER_SESSION ∧
       usub32 now s.last_reset_time_rtc ≥ MIN_RESET_INTERVAL) ∧
    (is_reset_safe now s = true →
       (safe_reset_sensor now s).1 =
         { s with reset_count_this_session := s.reset_count_this_session + 1,
                  last_reset_time_rtc := now } ∧
       (safe_reset_sensor now s).2.1 = [Act.serialReset]) ∧
    (is_reset_safe now s = false → (safe_reset_sensor now s).1 = s) := by
  refine ⟨?_, ?_, ?_⟩
  · intro h
    rw [safe_reset_sensor_actions] at h
    by_cases hs : is_reset_safe now s
    · exact (is_reset_safe_true_iff now s).mp hs
    · rw [if_neg hs] at h
      exact absurd rfl h
  · intro hs
    unfold safe_reset_sensor
    rw [hs]
    exact ⟨rfl, rfl⟩
  · intro hs
    unfold safe_reset_sensor
    rw [hs]
    rfl

/-- Witness for C9: at `now` = 30 minutes after a power-on with no prior
reset, the call is authorized and performs the paired update. -/
theorem reset_budget_protocol_witness :
    (safe_reset_sensor 1800000 initState).1 =
      { initState with reset_count_this_session := 1,
                       last_reset_time_rtc := 1800000 } ∧
    (safe_reset_sensor 1800000 initState).2.1 = [Act.serialReset] :=
  (reset_budget_protocol 1800000 initState).2.1 (by decide)

/-- The supervisory state after four loop iterations, 31 s apart, with a
completely dead sensor from power-on (every driver call fails, all data
globals stay 0). -/
def deadSensorState : SupState :=
  run initState [baseInput 31000, baseInput 62000, baseInput 93000,
                 baseInput 124000]

/-- C1 counterexample.  `deadSensorState` is reachable; at `now = 155000`
(about 2.6 minutes of uptime) the reset budget denies any reset — only
155 s of the 30-minute `MIN_RESET_INTERVAL` have elapsed since
`last_reset_time_rtc` — and `is_reset_safe` itself returns false, yet the
very next loop iteration executes `force_complete_sensor_reinitialization`
(a full tier-3 sensor reinitialization) from both the complete-failure
watchdog and the position-recovery retry loop. -/
theorem unguarded_reset_class_action :
    Reachable deadSensorState ∧
    is_reset_safe 155000 deadSensorState = false ∧
    usub32 155000 deadSensorState.last_reset_time_rtc < MIN_RESET_INTERVAL ∧
    Act.fullReinit ∈ (loop_step deadSensorState (baseInput 155000)).actions := by
  refine ⟨?_, by decide, by decide, by decide⟩
  exact Reachable.step _ _ (Reachable.step _ _ (Reachable.step _ _
    (Reachable.step _ _ Reachable.init)))

/-- C1 (amended): the reset-class actions that are dispatched through
`safe_reset_sensor` — the serial-link restart — are never executed when the
reset budget denies them, at each of its three call sites in the loop
(consecutive-failure escalation, two-hour preventive reset, read-failure
tail); but the forced-reinitialization paths (complete-failure watchdog,
position-recovery exhaustion, all-data-failed escalation) execute
reset-class actions without consulting the budget. -/
theorem serial_reset_requires_budget (now : Nat) (s : SupState) :
    (Act.serialReset ∈ (consecutive_failures_block now s).2.1 →
       is_reset_safe now s = true) ∧
    (Act.serialReset ∈ (operation_time_block now s).2.1 →
       is_reset_safe now s = true) ∧
    (Act.serialReset ∈ (failure_branch now s).2.1 →
       is_reset_safe now s = true) := by
  refine ⟨?_, ?_, ?_⟩
  · intro h
    unfold consecutive_failures_block at h
    split at h
    · simp only [List.mem_append] at h
      rcases h with h | h
      · exact mem_safe_reset_actions h
      · exfalso
        revert h
        split
        · intro h
          unfold reset_sensor_system at h
          simp at h
        · intro h
          cases h
    · cases h
  · intro h
    simp only [operation_time_block] at h
    split at h
    · split at h
      · split at h
        · simp only [List.mem_append] at h
          rcases h with h | h
          · exact mem_safe_reset_actions h
          · exfalso
            simp [reset_sensor_system] at h
        · exact mem_safe_reset_actions h
      · simp at h
    · simp at h
  · intro h
    simp only [failure_branch] at h
    split at h
    · split at h
      · simp only [List.mem_cons] at h
        rcases h with h | h
        · exact absurd h (by decide)
        · have h2 := mem_safe_reset_actions h
          exact h2
      · simp at h
    · simp at h

/-- Witness for the C1 amended theorem: with 20 consecutive failures and an
authorizing budget (30 minutes of uptime, no prior reset) the escalation
block does dispatch the serial reset, and the theorem yields the budget
authorization. -/
theorem serial_reset_requires_budget_witness :
    is_reset_safe 1800001
      { initState with consecutive_failures := 20 } = true :=
  (serial_reset_requires_budget 1800001
    { initState with consecutive_failures := 20 }).1 (by decide)

/-- An all-data-failed cycle: the driver update succeeds but every read
fails, so breath, heart and distance are all the 0.0 sentinel. -/
def allFailedInput (now : Nat) : CycleInput :=
  { baseInput now with update_ok := true }

/-- C3 counterexample.  Two consecutive cycles (at 10.5 s and 11 s of
uptime, 500 ms apart as the loop's `delay(500)` produces) both satisfy the
all-data-failed condition, so the claim requires
`consecutive_all_failed_count = 2`; because the counter only advances when
10 s have elapsed since the previous debug message, the code leaves it
at 1. -/
theorem all_failed_count_not_run_length :
    (run initState [allFailedInput 10500,
        allFailedInput 11000]).consecutive_all_failed_count = 1 ∧
    (run initState [allFailedInput 10500,
        allFailedInput 11000]).consecutive_all_failed_count ≠ 2 := by
  constructor
  · decide
  · decide

/-- C3 (amended): the failure counters are not uniform per-cycle run
lengths.  The all-data and vitals streak counters are rate-limited
observation counts: in a cycle where the category's condition holds they
advance only when the debounce interval (10 s, resp. 15 s) has elapsed
since they last advanced, they wrap to 0 in the same cycle when the
advance reaches the action threshold (5, resp. 2), and they reset to 0
when the condition is false.  The position-failure counter never resets on
a successful position read: the source's success branch zeroes a shadowed
block-local static (radar_usb.ino line 2099) and leaves the counter of
line 2121 untouched.  The driver-update counter `consecutive_failures` is
zeroed or incremented by the unrelated periodic serial probe
(radar_usb.ino lines 260-262 via lines 1712-1715), so it is not the run
length of driver-update failures either. -/
theorem category_counter_rules (now : Nat) (inp : CycleInput)
    (failed vf : Bool) (s : SupState) :
    ((all_failed_block now inp failed s).1.consecutive_all_failed_count =
      if failed ∧ usub32 now s.last_all_failed_debug > 10000 then
        (if s.consecutive_all_failed_count + 1 ≥ 5 then 0
         else s.consecutive_all_failed_count + 1)
      else if failed then s.consecutive_all_failed_count else 0) ∧
    ((vitals_block now inp vf s).1.consecutive_vitals_failed_count =
      if vf ∧ usub32 now s.last_vitals_failed_debug > 15000 then
        (if s.consecutive_vitals_failed_count + 1 ≥ 2 then 0
         else s.consecutive_vitals_failed_count + 1)
      else if vf then s.consecutive_vitals_failed_count else 0) ∧
    (inp.pos_ok = true →
      (position_block now inp s).1.consecutive_position_failures =
        s.consecutive_position_failures) ∧
    (check_timeout_safe now s.last_diagnostic_time DIAGNOSTIC_INTERVAL =
        false →
      check_timeout_safe now s.last_serial_check SERIAL_CHECK_INTERVAL =
        true →
      (periodic_checks now inp s).consecutive_failures =
        if inp.serial_responds_check then 0
        else s.consecutive_failures + 1) := by
  refine ⟨?_, ?_, ?_, ?_⟩
  · unfold all_failed_block
    by_cases h1 : failed = true ∧ usub32 now s.last_all_failed_debug > 10000
    · rw [if_pos h1, if_pos h1]
      by_cases h2 : s.consecutive_all_failed_count + 1 ≥ 5
      · rw [if_pos h2, if_pos h2]
      · rw [if_neg h2, if_neg h2]
    · rw [if_neg h1, if_neg h1]
      by_cases h3 : failed = true
      · rw [if_neg (by simp [h3]), if_pos h3]
      · rw [if_pos (by simp [h3]), if_neg h3]
  · unfold vitals_block
    by_cases h1 : vf = true ∧ usub32 now s.last_vitals_failed_debug > 15000
    · rw [if_pos h1, if_pos h1]
      by_cases h2 : s.consecutive_vitals_failed_count + 1 ≥ 2
      · rw [if_pos h2, if_pos h2]
      · rw [if_neg h2, if_neg h2]
    · rw [if_neg h1, if_neg h1]
      by_cases h3 : vf = true
      · rw [if_neg (by simp [h3]), if_pos h3]
      · rw [if_pos (by simp [h3]), if_neg h3]
  · intro h
    unfold position_block
    rw [if_pos h]
    rcases inp.targets with _ | ⟨⟨px, py⟩, rest⟩
    · rfl
    · rfl
  · intro h1 h2
    simp only [periodic_checks]
    rw [if_neg (show ¬check_timeout_safe now s.last_diagnostic_time
          DIAGNOSTIC_INTERVAL = true from by simp [h1]),
        if_pos h2]

/-- C5 counterexample.  Three consecutive all-data-failed cycles (0.5 s, 1 s
and 1.5 s of uptime, i.e. the loop's natural 500 ms cadence) should,
per the claim, have triggered wire-level diagnostics at the third; with the
10-second rate limit none of the three cycles even advances the counter, and
no diagnostic or recovery action of the ladder runs. -/
theorem all_failed_thresholds_not_cycle_counts :
    Act.wireDiagnostics ∉ (loop_step initState (allFailedInput 500)).actions ∧
    Act.wireDiagnostics ∉
      (loop_step (loop_step initState (allFailedInput 500)).state
        (allFailedInput 1000)).actions ∧
    Act.wireDiagnostics ∉
      (loop_step (loop_step (loop_step initState (allFailedInput 500)).state
        (allFailedInput 1000)).state (allFailedInput 1500)).actions ∧
    (loop_step (loop_step (loop_step initState (allFailedInput 500)).state
        (allFailedInput 1000)).state
        (allFailedInput 1500)).state.consecutive_all_failed_count = 0 := by
  refine ⟨by decide, by decide, by decide, by decide⟩

/-- C5 (amended): the recovery thresholds are driven by the rate-limited
streak counters, not by raw cycle counts.  When the vitals counter advances
to 2 the firmware attempts a best-effort recovery read only if the measured
distance is at most 1.5 m (otherwise, or when the robust read fails, it
substitutes synthetic vitals) and clears the counter; when the all-data
counter advances to 3 it runs wire diagnostics, at 4 it tries all reset
methods, and at 5 or more it runs the soft reset, adds the careful
reinitialization when the retest still fails, and clears the counter
regardless of the outcome. -/
theorem recovery_ladder_rule (now : Nat) (inp : CycleInput)
    (failed vf : Bool) (s : SupState) :
    ((all_failed_block now inp failed s).2 =
      if failed ∧ usub32 now s.last_all_failed_debug > 10000 then
        (if s.consecutive_all_failed_count + 1 = 3 then [Act.wireDiagnostics]
         else []) ++
        (if s.consecutive_all_failed_count + 1 = 4 then [Act.allResetMethods]
         else []) ++
        (if s.consecutive_all_failed_count + 1 ≥ 5 then
           (if inp.reset_retest_ok then [Act.softReset]
            else [Act.softReset, Act.carefulReinit])
         else [])
      else []) ∧
    (failed = true → usub32 now s.last_all_failed_debug > 10000 →
      s.consecutive_all_failed_count + 1 ≥ 5 →
      (all_failed_block now inp failed s).1.consecutive_all_failed_count = 0) ∧
    ((vitals_block now inp vf s).2 =
      if vf ∧ usub32 now s.last_vitals_failed_debug > 15000 then
        (if s.consecutive_vitals_failed_count + 1 ≥ 2 then
           (if s.distance > 3/2 then [Act.simulateVitals]
            else if inp.robust_ok then [Act.robustVitalsRead]
            else [Act.robustVitalsRead, Act.simulateVitals])
         else [])
      else []) := by
  refine ⟨?_, ?_, ?_⟩
  · by_cases h1 : failed = true ∧ usub32 now s.last_all_failed_debug > 10000
    · by_cases h2 : s.consecutive_all_failed_count + 1 ≥ 5
      · have h3 : ¬(s.consecutive_all_failed_count + 1 = 3) := by omega
        have h4 : ¬(s.consecutive_all_failed_count + 1 = 4) := by omega
        simp only [all_failed_block, if_pos h1, if_pos h2, if_neg h3, if_neg h4]
      · simp only [all_failed_block, if_pos h1, if_neg h2]
        simp
    · by_cases h3 : failed = true
      · simp only [all_failed_block, if_neg h1,
          if_neg (show ¬(¬failed = true) by simp [h3])]
      · simp only [all_failed_block, if_neg h1,
          if_pos (show ¬failed = true by simp [h3])]
  · intro hf hd h5
    simp only [all_failed_block, if_pos (And.intro hf hd), if_pos h5]
  · by_cases h1 : vf = true ∧ usub32 now s.last_vitals_failed_debug > 15000
    · by_cases h2 : s.consecutive_vitals_failed_count + 1 ≥ 2
      · by_cases h3 : s.distance > 3/2
        · simp only [vitals_block, if_pos h1, if_pos h2, if_pos h3]
        · by_cases h4 : inp.robust_ok = true
          · simp only [vitals_block, if_pos h1, if_pos h2, if_neg h3, if_pos h4]
          · simp only [vitals_block, if_pos h1, if_pos h2, if_neg h3, if_neg h4]
      · simp only [vitals_block, if_pos h1, if_neg h2]
    · by_cases h3 : vf = true
      · simp only [vitals_block, if_neg h1,
          if_neg (show ¬(¬vf = true) by simp [h3])]
      · simp only [vitals_block, if_neg h1,
          if_pos (show ¬vf = true by simp [h3])]

/-- Witness for the C5 amended theorem: from a state whose all-data counter
stands at 4 with the rate limit elapsed, a fifth observation with a failing
retest runs the soft reset followed by the careful reinitialization and
clears the counter. -/
theorem recovery_ladder_rule_witness :
    (all_failed_block 20000 { baseInput 20000 with reset_retest_ok := false }
        true { initState with consecutive_all_failed_count := 4 }).2 =
      [Act.softReset, Act.carefulReinit] ∧
    (all_failed_block 20000 { baseInput 20000 with reset_retest_ok := false }
        true { initState with
                 consecutive_all_failed_count := 4
             }).1.consecutive_all_failed_count = 0 := by
  constructor
  · have h := (recovery_ladder_rule 20000
      { baseInput 20000 with reset_retest_ok := false } true true
      { initState with consecutive_all_failed_count := 4 }).1
    rw [h]
    decide
  · exact (recovery_ladder_rule 20000
      { baseInput 20000 with reset_retest_ok := false } true true
      { initState with consecutive_all_failed_count := 4 }).2.1
      (by decide) (by decide) (by decide)

/-- C6: evaluation at the failing input.  When the hourly window elapses
(first iteration at `now = 3600001` after power-on) the loop does set
`is_hourly_sleep_mode = true`, does advance `last_hourly_sleep` to the
current tick, and does invoke the one-minute suspend; but because
`is_hourly_sleep_mode` is not declared `RTC_DATA_ATTR`, on the simulated
resume it reads false again — the flag does not survive the suspend
boundary, contradicting the claim (and making the scheduled-wake branch of
`setup()` unreachable). -/
theorem scheduled_sleep_flag_lost :
    (loop_step initState (baseInput 3600001)).suspend =
        some SuspendKind.scheduled ∧
    (loop_step initState (baseInput 3600001)).state.is_hourly_sleep_mode =
        true ∧
    (loop_step initState (baseInput 3600001)).state.last_hourly_sleep =
        3600001 ∧
    Act.suspendScheduled DEEP_SLEEP_DURATION ∈
        (loop_step initState (baseInput 3600001)).actions ∧
    (resume 100
        (loop_step initState (baseInput 3600001)).state).1.is_hourly_sleep_mode
      = false := by
  refine ⟨by decide, by decide, by decide, by decide, by decide⟩

theorem periodic_checks_keeps_sleep_fields (now : Nat) (inp : CycleInput)
    (s : SupState) :
    (periodic_checks now inp s).last_hourly_sleep = s.last_hourly_sleep ∧
    (periodic_checks now inp s).last_data_received = s.last_data_received := by
  simp only [periodic_checks]
  refine ⟨?_, ?_⟩ <;>
  · repeat' split
    all_goals rfl

theorem complete_failure_block_keeps_sleep_fields (now : Nat) (s : SupState) :
    (complete_failure_block now s).1.last_hourly_sleep =
      s.last_hourly_sleep ∧
    (complete_failure_block now s).1.last_data_received =
      s.last_data_received := by
  simp only [complete_failure_block]
  refine ⟨?_, ?_⟩ <;>
  · repeat' split
    all_goals rfl

theorem position_recovery_block_keeps_sleep_fields (now : Nat)
    (s : SupState) :
    (position_recovery_block now s).1.last_hourly_sleep =
      s.last_hourly_sleep ∧
    (position_recovery_block now s).1.last_data_received =
      s.last_data_received := by
  simp only [position_recovery_block]
  refine ⟨?_, ?_⟩ <;>
  · repeat' split
    all_goals rfl

/-- C7: whenever the overflow-safe elapsed time since `last_data_received`
strictly exceeds the 10-minute `RESET_TIMEOUT`, and the hourly scheduled
window has not yet elapsed (any amount of it may remain), the same loop
iteration enters the emergency deep sleep. -/
theorem emergency_suspend_on_data_timeout (s : SupState) (inp : CycleInput)
    (hhour : check_timeout_safe inp.now s.last_hourly_sleep
               HOURLY_SLEEP_INTERVAL = false)
    (hdata : elapsed_safe inp.now s.last_data_received > RESET_TIMEOUT) :
    (loop_step s inp).suspend = some SuspendKind.emergency ∧
    Act.suspendEmergency DEEP_SLEEP_DURATION ∈ (loop_step s inp).actions := by
  have hp := periodic_checks_keeps_sleep_fields inp.now inp
    { s with total_loops := s.total_loops + 1 }
  have hc := complete_failure_block_keeps_sleep_fields inp.now
    (periodic_checks inp.now inp { s with total_loops := s.total_loops + 1 })
  have hr := position_recovery_block_keeps_sleep_fields inp.now
    (complete_failure_block inp.now
      (periodic_checks inp.now inp
        { s with total_loops := s.total_loops + 1 })).1
  have hsleep : (position_recovery_block inp.now
      (complete_failure_block inp.now
        (periodic_checks inp.now inp
          { s with total_loops := s.total_loops + 1 })).1).1.last_hourly_sleep
      = s.last_hourly_sleep := by
    rw [hr.1, hc.1, hp.1]
  have hdatarec : (position_recovery_block inp.now
      (complete_failure_block inp.now
        (periodic_checks inp.now inp
          { s with total_loops := s.total_loops + 1 })).1).1.last_data_received
      = s.last_data_received := by
    rw [hr.2, hc.2, hp.2]
  have hd2 : check_timeout_safe inp.now s.last_data_received RESET_TIMEOUT
      = true := (check_timeout_safe_iff_gt inp.now s.last_data_received
        RESET_TIMEOUT).mpr hdata
  simp only [loop_step, hsleep, hdatarec, hhour, hd2]
  simp

/-- Witness for C7: from power-on with a dead link, at `now = 600001`
(10 minutes plus 1 ms, while 50 minutes of the hourly window remain) the
iteration suspends on the emergency path. -/
theorem emergency_suspend_on_data_timeout_witness :
    (loop_step initState (baseInput 600001)).suspend =
        some SuspendKind.emergency ∧
    Act.suspendEmergency DEEP_SLEEP_DURATION ∈
        (loop_step initState (baseInput 600001)).actions :=
  emergency_suspend_on_data_timeout initState (baseInput 600001)
    (by decide) (by decide)

/-- The invariant the synthetic-vitals generator maintains on its stored
state: breath in [12,25], heart in [60,100] (established by the
initializers 16.0 / 70.0 and preserved by the clamps). -/
def SimInv (s : SupState) : Prop :=
  12 ≤ s.sim_breath ∧ s.sim_breath ≤ 25 ∧ 60 ≤ s.sim_heart ∧ s.sim_heart ≤ 100

theorem clamp_low_high_mem (lo hi x : ℚ) (h : lo ≤ hi) :
    lo ≤ clamp_low_high lo hi x ∧ clamp_low_high lo hi x ≤ hi := by
  unfold clamp_low_high
  split_ifs <;> constructor <;> linarith

theorem simulate_siminv (now : Nat) (db dh : Int) (s : SupState)
    (h : SimInv s) : SimInv (simulate_vital_signs now db dh s) := by
  obtain ⟨h1, h2, h3, h4⟩ := h
  have hb := clamp_low_high_mem 12 25 (s.sim_breath + (db : ℚ)) (by norm_num)
  have hh := clamp_low_high_mem 60 100 (s.sim_heart + (dh : ℚ)) (by norm_num)
  unfold simulate_vital_signs SimInv
  split
  · exact ⟨hb.1, hb.2, hh.1, hh.2⟩
  · exact ⟨h1, h2, h3, h4⟩

theorem simulate_writes_sim (now : Nat) (db dh : Int) (s : SupState) :
    (simulate_vital_signs now db dh s).breath_rate =
      (simulate_vital_signs now db dh s).sim_breath ∧
    (simulate_vital_signs now db dh s).heart_rate =
      (simulate_vital_signs now db dh s).sim_heart :=
  ⟨rfl, rfl⟩

theorem periodic_checks_keeps_sim (now : Nat) (inp : CycleInput)
    (s : SupState) :
    (periodic_checks now inp s).sim_breath = s.sim_breath ∧
    (periodic_checks now inp s).sim_heart = s.sim_heart := by
  simp only [periodic_checks]
  refine ⟨?_, ?_⟩ <;>
  · repeat' split
    all_goals rfl

theorem complete_failure_block_keeps_sim (now : Nat) (s : SupState) :
    (complete_failure_block now s).1.sim_breath = s.sim_breath ∧
    (complete_failure_block now s).1.sim_heart = s.sim_heart := by
  simp only [complete_failure_block]
  refine ⟨?_, ?_⟩ <;>
  · repeat' split
    all_goals rfl

theorem position_recovery_block_keeps_sim (now : Nat) (s : SupState) :
    (position_recovery_block now s).1.sim_breath = s.sim_breath ∧
    (position_recovery_block now s).1.sim_heart = s.sim_heart := by
  simp only [position_recovery_block]
  refine ⟨?_, ?_⟩ <;>
  · repeat' split
    all_goals rfl

theorem consecutive_failures_block_keeps_sim (now : Nat) (s : SupState) :
    (consecutive_failures_block now s).1.sim_breath = s.sim_breath ∧
    (consecutive_failures_block now s).1.sim_heart = s.sim_heart := by
  simp only [consecutive_failures_block, safe_reset_sensor,
    reset_sensor_system]
  refine ⟨?_, ?_⟩ <;>
  · repeat' split
    all_goals rfl

theorem operation_time_block_keeps_sim (now : Nat) (s : SupState) :
    (operation_time_block now s).1.sim_breath = s.sim_breath ∧
    (operation_time_block now s).1.sim_heart = s.sim_heart := by
  simp only [operation_time_block, safe_reset_sensor, reset_sensor_system]
  refine ⟨?_, ?_⟩ <;>
  · repeat' split
    all_goals rfl

theorem failure_branch_keeps_sim (now : Nat) (s : SupState) :
    (failure_branch now s).1.sim_breath = s.sim_breath ∧
    (failure_branch now s).1.sim_heart = s.sim_heart := by
  simp only [failure_branch, safe_reset_sensor]
  refine ⟨?_, ?_⟩ <;>
  · repeat' split
    all_goals rfl

theorem all_failed_block_keeps_sim (now : Nat) (inp : CycleInput) (f : Bool)
    (s : SupState) :
    (all_failed_block now inp f s).1.sim_breath = s.sim_breath ∧
    (all_failed_block now inp f s).1.sim_heart = s.sim_heart := by
  simp only [all_failed_block]
  refine ⟨?_, ?_⟩ <;>
  · repeat' split
    all_goals rfl

theorem position_block_keeps_sim (now : Nat) (inp : CycleInput)
    (s : SupState) :
    (position_block now inp s).1.sim_breath = s.sim_breath ∧
    (position_block now inp s).1.sim_heart = s.sim_heart := by
  simp only [position_block]
  refine ⟨?_, ?_⟩ <;>
  · repeat' split
    all_goals rfl

theorem fallback_block_keeps_sim (now : Nat) (inp : CycleInput)
    (s : SupState) :
    (fallback_block now inp s).sim_breath = s.sim_breath ∧
    (fallback_block now inp s).sim_heart = s.sim_heart := by
  simp only [fallback_block]
  refine ⟨?_, ?_⟩ <;>
  · repeat' split
    all_goals rfl

theorem siminv_congr {a b : SupState} (hb : a.sim_breath = b.sim_breath)
    (hh : a.sim_heart = b.sim_heart) (h : SimInv b) : SimInv a := by
  unfold SimInv at h ⊢
  rw [hb, hh]
  exact h

theorem vitals_block_siminv (now : Nat) (inp : CycleInput) (vf : Bool)
    (s : SupState) (h : SimInv s) : SimInv (vitals_block now inp vf s).1 := by
  by_cases h1 : vf = true ∧ usub32 now s.last_vitals_failed_debug > 15000
  · by_cases h2 : s.consecutive_vitals_failed_count + 1 ≥ 2
    · by_cases h3 : s.distance > 3/2
      · simp only [vitals_block, if_pos h1, if_pos h2, if_pos h3]
        exact simulate_siminv now inp.sim_delta_breath inp.sim_delta_heart _ h
      · by_cases h4 : inp.robust_ok = true
        · simp only [vitals_block, if_pos h1, if_pos h2, if_neg h3, if_pos h4]
          exact h
        · simp only [vitals_block, if_pos h1, if_pos h2, if_neg h3, if_neg h4]
          exact simulate_siminv now inp.sim_delta_breath inp.sim_delta_heart _ h
    · simp only [vitals_block, if_pos h1, if_neg h2]
      exact h
  · by_cases h3 : vf = true
    · simp only [vitals_block, if_neg h1,
        if_neg (show ¬(¬vf = true) by simp [h3])]
      exact h
    · simp only [vitals_block, if_neg h1,
        if_pos (show ¬vf = true by simp [h3])]
      exact h

theorem read_area_siminv (now : Nat) (inp : CycleInput) (s : SupState)
    (h : SimInv s) : SimInv (read_area now inp s).1 := by
  simp only [read_area]
  refine siminv_congr (fallback_block_keeps_sim now inp _).1
    (fallback_block_keeps_sim now inp _).2 ?_
  refine siminv_congr (position_block_keeps_sim now inp _).1
    (position_block_keeps_sim now inp _).2 ?_
  refine siminv_congr (all_failed_block_keeps_sim now inp _ _).1
    (all_failed_block_keeps_sim now inp _ _).2 ?_
  exact vitals_block_siminv now inp _ _ h

theorem loop_step_siminv (s : SupState) (inp : CycleInput) (h : SimInv s) :
    SimInv (loop_step s inp).state := by
  have hp := periodic_checks_keeps_sim inp.now inp
    { s with total_loops := s.total_loops + 1 }
  have hinv1 : SimInv (periodic_checks inp.now inp
      { s with total_loops := s.total_loops + 1 }) :=
    siminv_congr hp.1 hp.2 h
  have hc := complete_failure_block_keeps_sim inp.now
    (periodic_checks inp.now inp { s with total_loops := s.total_loops + 1 })
  have hinv2 : SimInv (complete_failure_block inp.now
      (periodic_checks inp.now inp
        { s with total_loops := s.total_loops + 1 })).1 :=
    siminv_congr hc.1 hc.2 hinv1
  have hr := position_recovery_block_keeps_sim inp.now
    (complete_failure_block inp.now
      (periodic_checks inp.now inp
        { s with total_loops := s.total_loops + 1 })).1
  have hinv3 : SimInv (position_recovery_block inp.now
      (complete_failure_block inp.now
        (periodic_checks inp.now inp
          { s with total_loops := s.total_loops + 1 })).1).1 :=
    siminv_congr hr.1 hr.2 hinv2
  simp only [loop_step]
  split
  · exact siminv_congr rfl rfl hinv3
  · split
    · exact hinv3
    · have hb := consecutive_failures_block_keeps_sim inp.now
        (position_recovery_block inp.now
          (complete_failure_block inp.now
            (periodic_checks inp.now inp
              { s with total_loops := s.total_loops + 1 })).1).1
      have hinv4 : SimInv (consecutive_failures_block inp.now
          (position_recovery_block inp.now
            (complete_failure_block inp.now
              (periodic_checks inp.now inp
                { s with total_loops := s.total_loops + 1 })).1).1).1 :=
        siminv_congr hb.1 hb.2 hinv3
      have ho := operation_time_block_keeps_sim inp.now
        (consecutive_failures_block inp.now
          (position_recovery_block inp.now
            (complete_failure_block inp.now
              (periodic_checks inp.now inp
                { s with total_loops := s.total_loops + 1 })).1).1).1
      have hinv5 : SimInv (operation_time_block inp.now
          (consecutive_failures_block inp.now
            (position_recovery_block inp.now
              (complete_failure_block inp.now
                (periodic_checks inp.now inp
                  { s with total_loops := s.total_loops + 1 })).1).1).1).1 :=
        siminv_congr ho.1 ho.2 hinv4
      split
      · exact read_area_siminv inp.now inp _ hinv5
      · have hf := failure_branch_keeps_sim inp.now
          (operation_time_block inp.now
            (consecutive_failures_block inp.now
              (position_recovery_block inp.now
                (complete_failure_block inp.now
                  (periodic_checks inp.now inp
                    { s with total_loops := s.total_loops + 1 })).1).1).1).1
        exact siminv_congr hf.1 hf.2 hinv5

theorem resume_siminv (now0 : Nat) (s : SupState) :
    SimInv (resume now0 s).1 := by
  unfold resume reset_sensor_system initState SimInv
  norm_num

theorem reachable_siminv (s : SupState) (h : Reachable s) : SimInv s := by
  induction h with
  | init =>
      unfold SimInv initState
      norm_num
  | step s inp hr ih => exact loop_step_siminv s inp ih
  | wake s now0 hr ih => exact resume_siminv now0 s

theorem vitals_block_sim_output (now : Nat) (inp : CycleInput) (vf : Bool)
    (s : SupState) (hinv : SimInv s)
    (hmem : Act.simulateVitals ∈ (vitals_block now inp vf s).2) :
    12 ≤ (vitals_block now inp vf s).1.breath_rate ∧
    (vitals_block now inp vf s).1.breath_rate ≤ 25 ∧
    60 ≤ (vitals_block now inp vf s).1.heart_rate ∧
    (vitals_block now inp vf s).1.heart_rate ≤ 100 := by
  by_cases h1 : vf = true ∧ usub32 now s.last_vitals_failed_debug > 15000
  · by_cases h2 : s.consecutive_vitals_failed_count + 1 ≥ 2
    · by_cases h3 : s.distance > 3/2
      · simp only [vitals_block, if_pos h1, if_pos h2, if_pos h3]
        have hs := simulate_siminv now inp.sim_delta_breath
          inp.sim_delta_heart
          { s with consecutive_vitals_failed_count :=
                     s.consecutive_vitals_failed_count + 1,
                   last_vitals_failed_debug := now } hinv
        exact ⟨hs.1, hs.2.1, hs.2.2.1, hs.2.2.2⟩
      · by_cases h4 : inp.robust_ok = true
        · simp only [vitals_block, if_pos h1, if_pos h2, if_neg h3,
            if_pos h4] at hmem
          exact absurd hmem (by decide)
        · simp only [vitals_block, if_pos h1, if_pos h2, if_neg h3, if_neg h4]
          have hs := simulate_siminv now inp.sim_delta_breath
            inp.sim_delta_heart
            { s with consecutive_vitals_failed_count :=
                       s.consecutive_vitals_failed_count + 1,
                     last_vitals_failed_debug := now } hinv
          exact ⟨hs.1, hs.2.1, hs.2.2.1, hs.2.2.2⟩
    · simp only [vitals_block, if_pos h1, if_neg h2] at hmem
      cases hmem
  · by_cases h3 : vf = true
    · simp only [vitals_block, if_neg h1,
        if_neg (show ¬(¬vf = true) by simp [h3])] at hmem
      cases hmem
    · simp only [vitals_block, if_neg h1,
        if_pos (show ¬vf = true by simp [h3])] at hmem
      cases hmem

theorem all_failed_block_no_sim (now : Nat) (inp : CycleInput) (f : Bool)
    (s : SupState) :
    Act.simulateVitals ∉ (all_failed_block now inp f s).2 := by
  simp only [all_failed_block]
  repeat' split
  all_goals simp

theorem position_block_no_sim (now : Nat) (inp : CycleInput) (s : SupState) :
    Act.simulateVitals ∉ (position_block now inp s).2 := by
  simp only [position_block]
  repeat' split
  all_goals simp

theorem complete_failure_block_no_sim (now : Nat) (s : SupState) :
    Act.simulateVitals ∉ (complete_failure_block now s).2 := by
  simp only [complete_failure_block]
  repeat' split
  all_goals simp

theorem position_recovery_block_no_sim (now : Nat) (s : SupState) :
    Act.simulateVitals ∉ (position_recovery_block now s).2 := by
  simp only [position_recovery_block]
  repeat' split
  all_goals simp

theorem consecutive_failures_block_no_sim (now : Nat) (s : SupState) :
    Act.simulateVitals ∉ (consecutive_failures_block now s).2.1 := by
  simp only [consecutive_failures_block, safe_reset_sensor,
    reset_sensor_system]
  repeat' split
  all_goals simp

theorem operation_time_block_no_sim (now : Nat) (s : SupState) :
    Act.simulateVitals ∉ (operation_time_block now s).2.1 := by
  simp only [operation_time_block, safe_reset_sensor, reset_sensor_system]
  repeat' split
  all_goals simp

theorem all_failed_block_keeps_vitals (now : Nat) (inp : CycleInput)
    (f : Bool) (s : SupState) :
    (all_failed_block now inp f s).1.breath_rate = s.breath_rate ∧
    (all_failed_block now inp f s).1.heart_rate = s.heart_rate := by
  simp only [all_failed_block]
  refine ⟨?_, ?_⟩ <;>
  · repeat' split
    all_goals rfl

theorem position_block_keeps_vitals (now : Nat) (inp : CycleInput)
    (s : SupState) :
    (position_block now inp s).1.breath_rate = s.breath_rate ∧
    (position_block now inp s).1.heart_rate = s.heart_rate := by
  simp only [position_block]
  refine ⟨?_, ?_⟩ <;>
  · repeat' split
    all_goals rfl

theorem fallback_block_keeps_vitals (now : Nat) (inp : CycleInput)
    (s : SupState) :
    (fallback_block now inp s).breath_rate = s.breath_rate ∧
    (fallback_block now inp s).heart_rate = s.heart_rate := by
  simp only [fallback_block]
  refine ⟨?_, ?_⟩ <;>
  · repeat' split
    all_goals rfl

theorem read_area_sim_output (now : Nat) (inp : CycleInput) (s : SupState)
    (hinv : SimInv s)
    (hmem : Act.simulateVitals ∈ (read_area now inp s).2.1) :
    12 ≤ (read_area now inp s).2.2.breath ∧
    (read_area now inp s).2.2.breath ≤ 25 ∧
    60 ≤ (read_area now inp s).2.2.heart ∧
    (read_area now inp s).2.2.heart ≤ 100 := by
  simp only [read_area, List.mem_append] at hmem ⊢
  rcases hmem with (hmem | hmem) | hmem
  · have hinv0 : SimInv { s with
        breath_rate := if inp.breath_ok = true then inp.breath_val else 0,
        heart_rate := if inp.heart_ok = true then inp.heart_val else 0,
        distance := if inp.dist_ok = true then inp.dist_val else 0,
        x_position := 0, y_position := 0 } := hinv
    have hv := vitals_block_sim_output now inp
      (decide ((if inp.breath_ok = true then inp.breath_val else 0) = 0 ∧
               (if inp.heart_ok = true then inp.heart_val else 0) = 0))
      { s with
        breath_rate := if inp.breath_ok = true then inp.breath_val else 0,
        heart_rate := if inp.heart_ok = true then inp.heart_val else 0,
        distance := if inp.dist_ok = true then inp.dist_val else 0,
        x_position := 0, y_position := 0 } hinv0 hmem
    rw [(fallback_block_keeps_vitals now inp _).1,
        (fallback_block_keeps_vitals now inp _).2,
        (position_block_keeps_vitals now inp _).1,
        (position_block_keeps_vitals now inp _).2,
        (all_failed_block_keeps_vitals now inp _ _).1,
        (all_failed_block_keeps_vitals now inp _ _).2]
    exact hv
  · exact absurd hmem (all_failed_block_no_sim now inp _ _)
  · exact absurd hmem (position_block_no_sim now inp _)

theorem vitals_block_of_false (now : Nat) (inp : CycleInput) (s : SupState) :
    vitals_block now inp false s =
      ({ s with consecutive_vitals_failed_count := 0 }, []) := rfl

theorem all_failed_block_of_false (now : Nat) (inp : CycleInput)
    (s : SupState) :
    all_failed_block now inp false s =
      ({ s with consecutive_all_failed_count := 0 }, []) := rfl

theorem read_area_no_sim_of_vitals_present (now : Nat) (inp : CycleInput)
    (s : SupState)
    (hvf : decide ((if inp.breath_ok = true then inp.breath_val else 0) = 0 ∧
             (if inp.heart_ok = true then inp.heart_val else 0) = 0) = false) :
    Act.simulateVitals ∉ (read_area now inp s).2.1 := by
  simp only [read_area, List.mem_append]
  rw [hvf]
  simp only [vitals_block_of_false]
  rintro ((hmem | hmem) | hmem)
  · simp at hmem
  · exact all_failed_block_no_sim now inp _ _ hmem
  · exact position_block_no_sim now inp _ hmem

theorem read_area_telemetry_of_vitals_present (now : Nat) (inp : CycleInput)
    (s : SupState) (px py : ℚ)
    (hvf : decide ((if inp.breath_ok = true then inp.breath_val else 0) = 0 ∧
             (if inp.heart_ok = true then inp.heart_val else 0) = 0) = false)
    (haf : decide ((if inp.breath_ok = true then inp.breath_val else 0) = 0 ∧
             (if inp.heart_ok = true then inp.heart_val else 0) = 0 ∧
             (if inp.dist_ok = true then inp.dist_val else 0) = 0) = false)
    (hpos : inp.pos_ok = true) (htar : inp.targets = [(px, py)])
    (hdist : inp.dist_ok = false) :
    (read_area now inp s).2.2 =
      { breath := if inp.breath_ok = true then inp.breath_val else 0,
        heart := if inp.heart_ok = true then inp.heart_val else 0,
        x := px, y := py } := by
  simp only [read_area]
  rw [hvf, haf, hdist]
  simp only [vitals_block_of_false, all_failed_block_of_false,
    position_block, hpos, htar, if_pos, fallback_block]
  rw [if_neg (by rintro ⟨-, -, hq⟩; exact absurd hq (lt_irrefl 0))]

def twinInput (t : Telemetry) : CycleInput :=
  { baseInput 100 with
      update_ok := true, breath_ok := true, breath_val := t.breath,
      heart_ok := true, heart_val := t.heart, pos_ok := true,
      targets := [(t.x, t.y)] }

def twinInp (b h x y : ℚ) : CycleInput := twinInput ⟨b, h, x, y⟩

def twinS1 (b h x y : ℚ) : SupState :=
  periodic_checks (twinInp b h x y).now (twinInp b h x y)
    { initState with total_loops := initState.total_loops + 1 }

def twinS3 (b h x y : ℚ) : SupState :=
  (position_recovery_block (twinInp b h x y).now
    (complete_failure_block (twinInp b h x y).now (twinS1 b h x y)).1).1

def twinS5 (b h x y : ℚ) : SupState :=
  (operation_time_block (twinInp b h x y).now
    (consecutive_failures_block (twinInp b h x y).now (twinS3 b h x y)).1).1

def twinS6 (b h x y : ℚ) : SupState :=
  { twinS5 b h x y with
      successful_readings := (twinS5 b h x y).successful_readings + 1,
      consecutive_failures := 0,
      last_data_received := (twinInp b h x y).now }

theorem twin_actions (b h x y : ℚ) :
    (loop_step initState (twinInp b h x y)).actions =
      ((complete_failure_block (twinInp b h x y).now (twinS1 b h x y)).2 ++
        (position_recovery_block (twinInp b h x y).now
          (complete_failure_block (twinInp b h x y).now
            (twinS1 b h x y)).1).2) ++
      ((consecutive_failures_block (twinInp b h x y).now
          (twinS3 b h x y)).2.1 ++
        ((operation_time_block (twinInp b h x y).now
            (consecutive_failures_block (twinInp b h x y).now
              (twinS3 b h x y)).1).2.1 ++
          (read_area (twinInp b h x y).now (twinInp b h x y)
            (twinS6 b h x y)).2.1)) := rfl

theorem twin_telemetry (b h x y : ℚ) :
    (loop_step initState (twinInp b h x y)).telemetry =
      some (read_area (twinInp b h x y).now (twinInp b h x y)
        (twinS6 b h x y)).2.2 := rfl

theorem twin_pre_actions (b h x y : ℚ) :
    (complete_failure_block (twinInp b h x y).now (twinS1 b h x y)).2 = [] ∧
    (position_recovery_block (twinInp b h x y).now
      (complete_failure_block (twinInp b h x y).now (twinS1 b h x y)).1).2 =
      [Act.positionRecoveryAttempt] ∧
    (consecutive_failures_block (twinInp b h x y).now
      (twinS3 b h x y)).2.1 = [] ∧
    (operation_time_block (twinInp b h x y).now
      (consecutive_failures_block (twinInp b h x y).now
        (twinS3 b h x y)).1).2.1 = [] := by
  refine ⟨rfl, rfl, rfl, ?_⟩
  rw [show (twinInp b h x y).now = 100 from rfl]
  rfl

theorem genuine_twin_exists (b h x y : ℚ) (hb : 12 ≤ b) :
    Act.simulateVitals ∉
      (loop_step initState (twinInp b h x y)).actions ∧
    (loop_step initState (twinInp b h x y)).telemetry =
      some ⟨b, h, x, y⟩ := by
  have hb0 : ¬(b = 0 ∧ h = 0) := by
    rintro ⟨h1, -⟩
    rw [h1] at hb
    norm_num at hb
  have hvf : decide
      ((if (twinInp b h x y).breath_ok = true
          then (twinInp b h x y).breath_val else 0) = 0 ∧
       (if (twinInp b h x y).heart_ok = true
          then (twinInp b h x y).heart_val else 0) = 0) = false := by
    show decide (b = 0 ∧ h = 0) = false
    exact decide_eq_false hb0
  have haf : decide
      ((if (twinInp b h x y).breath_ok = true
          then (twinInp b h x y).breath_val else 0) = 0 ∧
       (if (twinInp b h x y).heart_ok = true
          then (twinInp b h x y).heart_val else 0) = 0 ∧
       (if (twinInp b h x y).dist_ok = true
          then (twinInp b h x y).dist_val else 0) = 0) = false := by
    show decide (b = 0 ∧ h = 0 ∧ (0 : ℚ) = 0) = false
    refine decide_eq_false ?_
    rintro ⟨h1, h2, -⟩
    exact hb0 ⟨h1, h2⟩
  constructor
  · rw [twin_actions]
    have hp := twin_pre_actions b h x y
    rw [hp.1, hp.2.1, hp.2.2.1, hp.2.2.2]
    simp only [List.nil_append, List.append_nil, List.mem_cons,
      List.mem_append]
    rintro (hmem | hmem)
    · exact absurd hmem (by decide)
    · exact read_area_no_sim_of_vitals_present (twinInp b h x y).now
        (twinInp b h x y) (twinS6 b h x y) hvf hmem
  · rw [twin_telemetry,
      read_area_telemetry_of_vitals_present (twinInp b h x y).now
        (twinInp b h x y) (twinS6 b h x y) x y hvf haf rfl rfl rfl]
    rfl

/-- C10: in every reachable state, whenever a loop iteration substitutes
synthetic vital signs (`simulate_vital_signs` runs, which happens only after
at least 2 rate-limited vitals-failure observations with the distance above
1.5 m or the robust retry failing), the telemetry record it emits carries a
breath rate in [12,25] and a heart rate in [60,100] written into the same
globals as genuine readings, and the identical record is emitted by a
genuine cycle from a reachable state with no substitution — the record has
no field that distinguishes synthetic from genuine values. -/
theorem synthetic_vitals_in_range_and_indistinguishable
    (s : SupState) (hreach : Reachable s) (inp : CycleInput) (t : Telemetry)
    (hsim : Act.simulateVitals ∈ (loop_step s inp).actions)
    (ht : (loop_step s inp).telemetry = some t) :
    (12 ≤ t.breath ∧ t.breath ≤ 25 ∧ 60 ≤ t.heart ∧ t.heart ≤ 100) ∧
    ∃ s2 inp2, Reachable s2 ∧
      Act.simulateVitals ∉ (loop_step s2 inp2).actions ∧
      (loop_step s2 inp2).telemetry = some t := by
  have hbounds : 12 ≤ t.breath ∧ t.breath ≤ 25 ∧
      60 ≤ t.heart ∧ t.heart ≤ 100 := by
    simp only [loop_step] at hsim ht
    split at ht
    · exact absurd ht (by simp)
    · split at ht
      · exact absurd ht (by simp)
      · split at ht
        case isTrue hc1 hc2 hc3 =>
          rw [if_neg hc1, if_neg hc2, if_pos hc3] at hsim
          dsimp only at hsim ht
          rw [Option.some.injEq] at ht
          simp only [List.mem_append] at hsim
          rcases hsim with ((((hm | hm) | hm) | hm) | hm)
          · exact absurd hm (complete_failure_block_no_sim _ _)
          · exact absurd hm (position_recovery_block_no_sim _ _)
          · exact absurd hm (consecutive_failures_block_no_sim _ _)
          · exact absurd hm (operation_time_block_no_sim _ _)
          · have hinv : SimInv s := reachable_siminv s hreach
            have hp := periodic_checks_keeps_sim inp.now inp
              { s with total_loops := s.total_loops + 1 }
            have hc := complete_failure_block_keeps_sim inp.now
              (periodic_checks inp.now inp
                { s with total_loops := s.total_loops + 1 })
            have hr := position_recovery_block_keeps_sim inp.now
              (complete_failure_block inp.now
                (periodic_checks inp.now inp
                  { s with total_loops := s.total_loops + 1 })).1
            have hcb := consecutive_failures_block_keeps_sim inp.now
              (position_recovery_block inp.now
                (complete_failure_block inp.now
                  (periodic_checks inp.now inp
                    { s with total_loops := s.total_loops + 1 })).1).1
            have hob := operation_time_block_keeps_sim inp.now
              (consecutive_failures_block inp.now
                (position_recovery_block inp.now
                  (complete_failure_block inp.now
                    (periodic_checks inp.now inp
                      { s with total_loops := s.total_loops + 1 })).1).1).1
            have hinv6 : SimInv (operation_time_block inp.now
                (consecutive_failures_block inp.now
                  (position_recovery_block inp.now
                    (complete_failure_block inp.now
                      (periodic_checks inp.now inp
                        { s with
                            total_loops := s.total_loops + 1 })).1).1).1).1 :=
              siminv_congr hob.1 hob.2 (siminv_congr hcb.1 hcb.2
                (siminv_congr hr.1 hr.2 (siminv_congr hc.1 hc.2
                  (siminv_congr hp.1 hp.2 hinv))))
            have hout := read_area_sim_output inp.now inp _
              (by exact hinv6) hm
            rw [ht] at hout
            exact hout
        case isFalse hc1 hc2 hc3 =>
          exact absurd ht (by simp)
  refine ⟨hbounds, initState, twinInp t.breath t.heart t.x t.y,
    Reachable.init, ?_, ?_⟩
  · exact (genuine_twin_exists t.breath t.heart t.x t.y hbounds.1).1
  · have h2 := (genuine_twin_exists t.breath t.heart t.x t.y hbounds.1).2
    rw [h2]

/-- A cycle whose driver update succeeds with a distance of 2 m but no
vitals: used to drive the simulator substitution path. -/
def simTrigInput (now : Nat) : CycleInput :=
  { baseInput now with
      update_ok := true, dist_ok := true, dist_val := 2, pos_ok := true,
      targets := [(1, 1)] }

/-- The reachable state after one such cycle at 16 s of uptime: one
rate-limited vitals-failure observation is recorded. -/
def simTrigState : SupState :=
  (loop_step initState (simTrigInput 16000)).state


def simTrigS6 : SupState :=
  let s3 := (position_recovery_block 32000
    (complete_failure_block 32000
      (periodic_checks 32000 (simTrigInput 32000)
        { simTrigState with total_loops := simTrigState.total_loops + 1 })).1).1
  let s5 := (operation_time_block 32000
    (consecutive_failures_block 32000 s3).1).1
  { s5 with successful_readings := s5.successful_readings + 1,
            consecutive_failures := 0, last_data_received := 32000 }

def simTrigS0 : SupState :=
  { simTrigS6 with breath_rate := 0, heart_rate := 0, distance := 2,
                   x_position := 0, y_position := 0 }

theorem simTrig_actions_eq :
    (loop_step simTrigState (simTrigInput 32000)).actions =
      (read_area 32000 (simTrigInput 32000) simTrigS6).2.1 := rfl

theorem simTrig_ra_split :
    (read_area 32000 (simTrigInput 32000) simTrigS6).2.1 =
      ((vitals_block 32000 (simTrigInput 32000) true simTrigS0).2 ++
        (all_failed_block 32000 (simTrigInput 32000) false
          (vitals_block 32000 (simTrigInput 32000) true simTrigS0).1).2) ++
      (position_block 32000 (simTrigInput 32000)
        (all_failed_block 32000 (simTrigInput 32000) false
          (vitals_block 32000 (simTrigInput 32000) true simTrigS0).1).1).2 := rfl

set_option maxHeartbeats 1600000 in
theorem simTrig_telemetry_eq :
    (loop_step simTrigState (simTrigInput 32000)).telemetry =
      some { breath :=
               (vitals_block 32000 (simTrigInput 32000) true
                 simTrigS0).1.breath_rate,
             heart :=
               (vitals_block 32000 (simTrigInput 32000) true
                 simTrigS0).1.heart_rate,
             x := 1, y := 1 } := rfl

def simTrigS1 : SupState :=
  { simTrigS0 with
      consecutive_vitals_failed_count :=
        simTrigS0.consecutive_vitals_failed_count + 1,
      last_vitals_failed_debug := 32000 }

set_option maxHeartbeats 1600000 in
theorem simTrig_vb :
    vitals_block 32000 (simTrigInput 32000) true simTrigS0 =
      ({ simulate_vital_signs 32000 0 0 simTrigS1 with
         consecutive_vitals_failed_count := 0 }, [Act.simulateVitals]) := by
  have hkey : vitals_block 32000 (simTrigInput 32000) true simTrigS0 =
      ({ (if (2 : ℚ) > 3/2 then
            (simulate_vital_signs 32000 0 0 simTrigS1, [Act.simulateVitals])
          else if (simTrigInput 32000).robust_ok then
            ({ simTrigS1 with
                 breath_rate := (simTrigInput 32000).robust_breath,
                 heart_rate := (simTrigInput 32000).robust_heart },
             [Act.robustVitalsRead])
          else
            (simulate_vital_signs 32000 0 0 simTrigS1,
             [Act.robustVitalsRead, Act.simulateVitals])).1 with
         consecutive_vitals_failed_count := 0 },
       (if (2 : ℚ) > 3/2 then
            (simulate_vital_signs 32000 0 0 simTrigS1, [Act.simulateVitals])
          else if (simTrigInput 32000).robust_ok then
            ({ simTrigS1 with
                 breath_rate := (simTrigInput 32000).robust_breath,
                 heart_rate := (simTrigInput 32000).robust_heart },
             [Act.robustVitalsRead])
          else
            (simulate_vital_signs 32000 0 0 simTrigS1,
             [Act.robustVitalsRead, Act.simulateVitals])).2) := rfl
  rw [hkey, if_pos (show (2 : ℚ) > 3/2 from by norm_num)]

theorem simTrig_mem :
    Act.simulateVitals ∈
      (loop_step simTrigState (simTrigInput 32000)).actions := by
  rw [simTrig_actions_eq, simTrig_ra_split, simTrig_vb]
  simp

theorem simTrig_tel :
    (loop_step simTrigState (simTrigInput 32000)).telemetry =
      some ⟨16, 70, 1, 1⟩ := by
  rw [simTrig_telemetry_eq, simTrig_vb]
  simp only [Option.some.injEq, Telemetry.mk.injEq]
  refine ⟨?_, ?_, trivial, trivial⟩
  · show clamp_low_high 12 25 ((16 : ℚ) + ((0 : Int) : ℚ)) = 16
    norm_num [clamp_low_high]
  · show clamp_low_high 60 100 ((70 : ℚ) + ((0 : Int) : ℚ)) = 70
    norm_num [clamp_low_high]

/-- Witness for C10: at 32 s of uptime the second rate-limited
vitals-failure observation triggers the substitution (the 2 m distance is
above 1.5 m), and the emitted record ⟨16, 70, 1, 1⟩ satisfies the bounds
and has a genuine twin. -/
theorem synthetic_vitals_witness :
    (12 ≤ (⟨16, 70, 1, 1⟩ : Telemetry).breath ∧
     (⟨16, 70, 1, 1⟩ : Telemetry).breath ≤ 25 ∧
     60 ≤ (⟨16, 70, 1, 1⟩ : Telemetry).heart ∧
     (⟨16, 70, 1, 1⟩ : Telemetry).heart ≤ 100) ∧
    ∃ s2 inp2, Reachable s2 ∧
      Act.simulateVitals ∉ (loop_step s2 inp2).actions ∧
      (loop_step s2 inp2).telemetry = some ⟨16, 70, 1, 1⟩ :=
  synthetic_vitals_in_range_and_indistinguishable simTrigState
    (Reachable.step initState (simTrigInput 16000) Reachable.init)
    (simTrigInput 32000) ⟨16, 70, 1, 1⟩ simTrig_mem simTrig_tel
